import Mathlib

set_option maxRecDepth 8000

/-!
Verification model of the `pagination` Go package.

The package offers three independent services, all modelled here:
  * parsing of the `offset` and `limit` query parameters (`GetFromURLQuery`,
    `Default`);
  * a response envelope (`Pageable`) with a builder (`BuildPageable`) and a
    generic decoder (`PageableToSlice`);
  * nullable scalar wrappers (`NullBool`, `NullInt`, `NullFloat`,
    `NullString`, `NullEmptyString`, `NullTime`, `JSONNullInt64`,
    `JSONNullFloat64`) with custom JSON marshalling.

Modelling conventions, used throughout:
  * JSON byte strings are modelled by their parsed form `Jv` (the values a
    generic `json.Unmarshal` into `interface` produces).  JSON numbers are
    modelled as exact rationals; a decode that goes through a Go `float64`
    (`NullInt`, `NullFloat`, `JSONNullFloat64`) applies `floatRound`, the
    IEEE-754 binary64 round-to-nearest-even rounding, with overflow as a
    decode error, so effects such as `int64` values above 2^53 losing
    precision are modelled.
  * `UnmarshalJSON` is modelled on a fresh (zero-valued) receiver, which is
    what the `encoding/json` decode path supplies; it returns the resulting
    wrapper together with a Boolean error flag (`true` means the Go method
    returned a non-nil error).
  * Go `time.Time` is modelled by its broken-down fields in UTC; the package
    itself normalizes every scanned or parsed time to UTC.
-/

/-- JSON values, the result of a generic JSON decode (`nil`, `bool`,
`float64`, `string`, slice, object), used to model JSON byte strings by
their parsed content. -/
inductive Jv where
  | null
  | bool (b : Bool)
  | num (q : Rat)
  | str (s : String)
  | arr (elems : List Jv)
  | obj (fields : List (String × Jv))

/-- Truncation of a rational toward zero, modelling Go's conversion
`int64(f)` of a `float64` to an integer. -/
def truncQ (q : Rat) : Int := q.num.tdiv q.den

/-- Fuel-driven binary logarithm (the fuel makes the recursion
structural; `natLog2` supplies enough). -/
def log2Aux : Nat → Nat → Nat
  | 0, _ => 0
  | fuel + 1, n => if n ≥ 2 then log2Aux fuel (n / 2) + 1 else 0

/-- Floor of the base-2 logarithm of a natural number. -/
def natLog2 (n : Nat) : Nat := log2Aux n n

/-- Fuel-driven power of two by binary squaring (the fuel bounds the
recursion depth; 64 levels cover every exponent used). -/
def pow2Aux : Nat → Nat → Nat
  | 0, _ => 1
  | fuel + 1, k =>
    if k = 0 then 1
    else
      let h := pow2Aux fuel (k / 2)
      if k % 2 = 0 then h * h else 2 * h * h

/-- Power of two. -/
def pow2 (k : Nat) : Nat := pow2Aux 64 k

/-- IEEE-754 binary64 rounding of an exact rational: round to nearest,
ties to even, with gradual underflow below 2^(-1022) (54-bit ties resolve
on the 2^(-1074) grid) and `none` when the rounded magnitude reaches
2^1024 (overflow, which Go's `strconv.ParseFloat`, and hence a JSON
number decode into `float64`, reports as an error).  This models the
`float64` value Go's JSON decoder produces for a number literal whose
exact value is `q`. -/
def floatRound (q : Rat) : Option Rat :=
  if q = 0 then some 0
  else
    let n := q.num.natAbs
    let d := q.den
    let e0 : Int :=
      if d ≤ n then (natLog2 (n / d) : Int)
      else
        let k := natLog2 (d / n)
        if d = n * pow2 k then -(k : Int) else -((k : Int) + 1)
    let e := max e0 (-1022)
    let sn := n * pow2 (52 - e).toNat
    let sd := d * pow2 (e - 52).toNat
    let fl := sn / sd
    let rem := sn % sd
    let m : Nat :=
      if 2 * rem < sd then fl
      else if sd < 2 * rem then fl + 1
      else if fl % 2 = 0 then fl else fl + 1
    if 1023 ≤ e ∧ pow2 53 ≤ m * pow2 (e - 1023).toNat then none
    else
      let sign : Int := if q < 0 then -1 else 1
      some (mkRat (sign * (m * pow2 (e - 52).toNat)) (pow2 (52 - e).toNat))

/-- Decimal digit character for `n % 10`, as produced by Go's fixed-width
numeric formatting. -/
def digitChar (n : Nat) : Char := Char.ofNat (48 + n % 10)

/-- Reads a decimal digit character back to its value. -/
def digit? (c : Char) : Option Nat :=
  if 48 ≤ c.toNat ∧ c.toNat ≤ 57 then some (c.toNat - 48) else none

/-- Four-digit zero-padded decimal rendering (Go layout element `2006`). -/
def pad4 (n : Nat) : List Char :=
  [digitChar (n / 1000), digitChar (n / 100), digitChar (n / 10), digitChar n]

/-- Two-digit zero-padded decimal rendering (Go layout elements `01`, `02`). -/
def pad2 (n : Nat) : List Char := [digitChar (n / 10), digitChar n]

/-- Gregorian leap-year rule, as in Go's `time` package. -/
def isLeapYear (y : Nat) : Bool := y % 4 == 0 && (y % 100 != 0 || y % 400 == 0)

/-- Number of days of month `m` in year `y`, as validated by Go's
`time.Parse`. -/
def daysInMonth (y m : Nat) : Nat :=
  if m = 2 then (if isLeapYear y then 29 else 28)
  else if m = 4 ∨ m = 6 ∨ m = 9 ∨ m = 11 then 30 else 31

/-- Model of Go `time.Time`, restricted to UTC wall-clock fields.  The
package normalizes times to UTC (its `Scan` forces UTC and its parsing
layouts carry no zone for the date form), so the location component is
elided. -/
structure GoTime where
  year : Nat
  month : Nat
  day : Nat
  hour : Nat
  minute : Nat
  second : Nat
  nsec : Nat
deriving DecidableEq

/-- Go's zero `time.Time`: January 1, year 1, 00:00:00 UTC. -/
def GoTime.zero : GoTime := ⟨1, 1, 1, 0, 0, 0, 0⟩

/-- Model of `time.Time.IsZero`. -/
def GoTime.IsZero (t : GoTime) : Bool := t = GoTime.zero

/-- Broken-down fields as a list, most significant first, for lexicographic
instant comparison (valid because all modelled times share the UTC zone). -/
def GoTime.fieldsList (t : GoTime) : List Nat :=
  [t.year, t.month, t.day, t.hour, t.minute, t.second, t.nsec]

/-- Lexicographic comparison of two equal-length lists of naturals. -/
def natLex : List Nat → List Nat → Ordering
  | x :: xs, y :: ys =>
    match compare x y with
    | Ordering.eq => natLex xs ys
    | o => o
  | _, _ => Ordering.eq

/-- Model of `time.Time.After` (strictly later instant). -/
def GoTime.After (a b : GoTime) : Bool := natLex a.fieldsList b.fieldsList == Ordering.gt

/-- Model of `time.Time.Before` (strictly earlier instant). -/
def GoTime.Before (a b : GoTime) : Bool := natLex a.fieldsList b.fieldsList == Ordering.lt

/-- Year as rendered by Go's layout element `2006`: zero-padded to four
digits, and all digits for years of five or more digits. -/
def formatYear (y : Nat) : List Char :=
  if y ≤ 9999 then pad4 y else Nat.toDigits 10 y

/-- Rendering of a date by Go's `Format` with layout `2006-01-02`. -/
def formatDate (y m d : Nat) : String :=
  String.mk (formatYear y ++ '-' :: pad2 m ++ '-' :: pad2 d)

/-- Model of Go `time.Parse` with layout `2006-01-02`: four year digits,
two month digits, two day digits, with month and day range checks; the
result is a midnight UTC time. -/
def parseDate (s : String) : Option GoTime :=
  match s.data with
  | [y1, y2, y3, y4, c1, m1, m2, c2, d1, d2] =>
    if c1 = '-' ∧ c2 = '-' then
      match digit? y1, digit? y2, digit? y3, digit? y4,
            digit? m1, digit? m2, digit? d1, digit? d2 with
      | some a, some b, some c, some d, some e, some f, some g, some h =>
        let y := 1000 * a + 100 * b + 10 * c + d
        let mo := 10 * e + f
        let da := 10 * g + h
        if 1 ≤ mo ∧ mo ≤ 12 ∧ 1 ≤ da ∧ da ≤ daysInMonth y mo then
          some ⟨y, mo, da, 0, 0, 0, 0⟩
        else none
      | _, _, _, _, _, _, _, _ => none
    else none
  | _ => none

/-- Two decimal digit characters read as one value. -/
def val2 (a b : Char) : Option Nat := do
  let x ← digit? a
  let y ← digit? b
  pure (10 * x + y)

/-- Zone suffix accepted by Go's RFC3339 layout element `Z07:00`: either
`Z` or a signed two-digit `hh:mm` offset.  Go does not range-check the
numeric offset (for example `+99:59` parses), so neither does the
model. -/
def parseZone (cs : List Char) : Bool :=
  match cs with
  | ['Z'] => true
  | [sgn, h1, h2, ':', m1, m2] =>
    (sgn = '+' || sgn = '-') && (val2 h1 h2).isSome && (val2 m1 m2).isSome
  | _ => false

/-- Optional fractional second followed by a zone suffix, as Go's parser
accepts after a seconds field: a period or (since Go 1.17) a comma, then
at least one digit.  When the would-be separator is not followed by a
digit the zone is parsed from the separator on, as in Go. -/
def parseFracZone (cs : List Char) : Bool :=
  match cs with
  | sep :: d0 :: rest =>
    if (sep = '.' ∨ sep = ',') ∧ (digit? d0).isSome then
      parseZone (rest.dropWhile fun c => (digit? c).isSome)
    else parseZone cs
  | _ => parseZone cs

/-- Model of Go `time.Parse` with the RFC3339 layout.  Acceptance (the
shape and range checks) follows Go; the resulting wall-clock fields are
kept as written and the offset normalization and fractional value are
elided, since no verified property inspects an RFC3339-parsed value. -/
def parseRFC3339 (s : String) : Option GoTime :=
  match s.data with
  | y1 :: y2 :: y3 :: y4 :: '-' :: m1 :: m2 :: '-' :: d1 :: d2 :: 'T' ::
      h1 :: h2 :: ':' :: mi1 :: mi2 :: ':' :: s1 :: s2 :: rest =>
    match digit? y1, digit? y2, digit? y3, digit? y4, val2 m1 m2, val2 d1 d2,
          val2 h1 h2, val2 mi1 mi2, val2 s1 s2 with
    | some a, some b, some c, some d, some mo, some da, some hh, some mm, some ss =>
      let y := 1000 * a + 100 * b + 10 * c + d
      if 1 ≤ mo ∧ mo ≤ 12 ∧ 1 ≤ da ∧ da ≤ daysInMonth y mo ∧
          hh ≤ 23 ∧ mm ≤ 59 ∧ ss ≤ 59 ∧ parseFracZone rest then
        some ⟨y, mo, da, hh, mm, ss, 0⟩
      else none
    | _, _, _, _, _, _, _, _, _ => none
  | _ => none

/-- Model of `NullBool` (embedded `sql.NullBool` flattened; the Boolean
payload field is lowercased because `Bool` is taken by the type). -/
structure NullBool where
  bool : Bool
  Valid : Bool
deriving DecidableEq

/-- Model of `NullBool.MarshalJSON`. -/
def NullBool.MarshalJSON (nb : NullBool) : Jv :=
  if !nb.Valid then Jv.null else Jv.bool nb.bool

/-- Model of `NullBool.UnmarshalJSON` on a fresh receiver.  A non-null,
non-Boolean input makes the inner unmarshal fail, so the error flag is set
and validity is false. -/
def NullBool.UnmarshalJSON (v : Jv) : NullBool × Bool :=
  match v with
  | Jv.null => (⟨false, false⟩, false)
  | Jv.bool b => (⟨b, true⟩, false)
  | _ => (⟨false, false⟩, true)

/-- Model of `NullInt` (embedded `sql.NullInt64` flattened; the payload is
a mathematical integer, Go's `int64` range being irrelevant to the
verified properties except where stated). -/
structure NullInt where
  Int64 : Int
  Valid : Bool
deriving DecidableEq

/-- Model of `NullInt.MarshalJSON`: a zero value collapses to null. -/
def NullInt.MarshalJSON (ni : NullInt) : Jv :=
  if !ni.Valid || ni.Int64 == 0 then Jv.null else Jv.num (ni.Int64 : Rat)

/-- Model of `NullInt.UnmarshalJSON` on a fresh receiver: the input is
decoded as a `float64` (hence `floatRound`, so integers above 2^53 lose
precision and an out-of-range number is an error) and truncated toward
zero; a JSON null decodes into a `float64` as a no-op without error in
Go, after which validity is forced to false. -/
def NullInt.UnmarshalJSON (v : Jv) : NullInt × Bool :=
  match v with
  | Jv.null => (⟨0, false⟩, false)
  | Jv.num q =>
    match floatRound q with
    | some f => (⟨truncQ f, true⟩, false)
    | none => (⟨0, false⟩, true)
  | _ => (⟨0, false⟩, true)

/-- Two's-complement wrap of an integer into the 32-bit signed range,
modelling Go's conversion `int32(n)` of an `int64`. -/
def wrap32 (n : Int) : Int := (n + 2 ^ 31) % 2 ^ 32 - 2 ^ 31

/-- Model of `NullInt.MapToInt32`.  The result pairs the optional value
with an error flag; only an upper bound is checked before the wrapping
conversion. -/
def NullInt.MapToInt32 (ni : NullInt) : Option Int × Bool :=
  if !ni.Valid then (none, false)
  else if ni.Int64 > 2147483647 then (none, true)
  else (some (wrap32 ni.Int64), false)

/-- Model of `NullFloat` (embedded `sql.NullFloat64` flattened; the
`float64` payload is modelled as a rational, a faithful abstraction for
the marshalling round trips verified here, since Go serializes a
`float64` so that it reads back to the same value). -/
structure NullFloat where
  Float64 : Rat
  Valid : Bool
deriving DecidableEq

/-- Model of `NullFloat.MarshalJSON`: a zero value collapses to null. -/
def NullFloat.MarshalJSON (nf : NullFloat) : Jv :=
  if !nf.Valid || nf.Float64 == 0 then Jv.null else Jv.num nf.Float64

/-- Model of `NullFloat.UnmarshalJSON` on a fresh receiver: the number is
read as a `float64` (`floatRound`; out of range is an error); a JSON null
decodes without error and validity is then forced to false. -/
def NullFloat.UnmarshalJSON (v : Jv) : NullFloat × Bool :=
  match v with
  | Jv.null => (⟨0, false⟩, false)
  | Jv.num q =>
    match floatRound q with
    | some f => (⟨f, true⟩, false)
    | none => (⟨0, false⟩, true)
  | _ => (⟨0, false⟩, true)

/-- Model of `NullString` (embedded `sql.NullString` flattened; the string
payload field is lowercased because `String` is taken by the type). -/
structure NullString where
  string : String
  Valid : Bool
deriving DecidableEq

/-- Model of `NullString.MarshalJSON`: an empty string collapses to null. -/
def NullString.MarshalJSON (ns : NullString) : Jv :=
  if !ns.Valid || ns.string == "" then Jv.null else Jv.str ns.string

/-- Model of `NullString.UnmarshalJSON` on a fresh receiver. -/
def NullString.UnmarshalJSON (v : Jv) : NullString × Bool :=
  match v with
  | Jv.null => (⟨"", false⟩, false)
  | Jv.str s => (⟨s, true⟩, false)
  | _ => (⟨"", false⟩, true)

/-- Model of `NullEmptyString` (a `sql.NullString` whose marshalling keeps
empty strings). -/
structure NullEmptyString where
  string : String
  Valid : Bool
deriving DecidableEq

/-- Model of `NullEmptyString.MarshalJSON`: an invalid wrapper marshals to
the empty JSON string, not to null. -/
def NullEmptyString.MarshalJSON (ns : NullEmptyString) : Jv :=
  if !ns.Valid then Jv.str "" else Jv.str ns.string

/-- Model of `NullEmptyString.UnmarshalJSON` on a fresh receiver.  In Go,
unmarshalling a JSON null into a plain `string` is a no-op that returns no
error, so a null input leaves the string empty and sets validity to
true. -/
def NullEmptyString.UnmarshalJSON (v : Jv) : NullEmptyString × Bool :=
  match v with
  | Jv.null => (⟨"", true⟩, false)
  | Jv.str s => (⟨s, true⟩, false)
  | _ => (⟨"", false⟩, true)

/-- Model of `NullTime` (embedded `sql.NullTime` flattened). -/
structure NullTime where
  Time : GoTime
  Valid : Bool
deriving DecidableEq

/-- Model of `NullTime.MarshalJSON`: an invalid or zero time marshals to
null, otherwise to the `2006-01-02` date string. -/
def NullTime.MarshalJSON (nt : NullTime) : Jv :=
  if !nt.Valid || nt.Time.IsZero then Jv.null
  else Jv.str (formatDate nt.Time.year nt.Time.month nt.Time.day)

/-- Model of `NullTime.UnmarshalJSON` on a fresh receiver: a quoted
`2006-01-02` parse is tried first, then a quoted RFC3339 parse; a failed
`time.Parse` yields the zero time, so after both parses fail the receiver
holds the zero time, stays invalid, and the error is returned.  Only a
JSON string can match either quoted layout. -/
def NullTime.UnmarshalJSON (v : Jv) : NullTime × Bool :=
  match v with
  | Jv.null => (⟨GoTime.zero, false⟩, false)
  | Jv.str s =>
    match parseDate s with
    | some t => (⟨t, true⟩, false)
    | none =>
      match parseRFC3339 s with
      | some t => (⟨t, true⟩, false)
      | none => (⟨GoTime.zero, false⟩, true)
  | _ => (⟨GoTime.zero, false⟩, true)

/-- Model of `NullTime.AfterOrEqual`. -/
def NullTime.AfterOrEqual (nt t : NullTime) : Bool :=
  if !nt.Time.IsZero && t.Time.IsZero then false
  else (nt.Time == t.Time) || nt.Time.After t.Time

/-- Model of `NullTime.BeforeOrEqual`. -/
def NullTime.BeforeOrEqual (nt t : NullTime) : Bool :=
  if nt.Time.IsZero && !t.Time.IsZero then false
  else if !nt.Time.IsZero && t.Time.IsZero then true
  else (nt.Time == t.Time) || nt.Time.Before t.Time

/-- Model of `JSONNullInt64` (embedded `sql.NullInt64` flattened). -/
structure JSONNullInt64 where
  Int64 : Int
  Valid : Bool
deriving DecidableEq

/-- Model of `JSONNullInt64.MarshalJSON`: no zero collapsing. -/
def JSONNullInt64.MarshalJSON (v : JSONNullInt64) : Jv :=
  if v.Valid then Jv.num (v.Int64 : Rat) else Jv.null

/-- Model of `JSONNullInt64.UnmarshalJSON` on a fresh receiver: the input
is decoded into an optional `int64`, so null yields invalid without error
and a non-integral or non-numeric input fails. -/
def JSONNullInt64.UnmarshalJSON (v : Jv) : JSONNullInt64 × Bool :=
  match v with
  | Jv.null => (⟨0, false⟩, false)
  | Jv.num q => if q.den = 1 then (⟨q.num, true⟩, false) else (⟨0, false⟩, true)
  | _ => (⟨0, false⟩, true)

/-- Model of `JSONNullFloat64` (embedded `sql.NullFloat64` flattened). -/
structure JSONNullFloat64 where
  Float64 : Rat
  Valid : Bool
deriving DecidableEq

/-- Model of `JSONNullFloat64.MarshalJSON`: no zero collapsing. -/
def JSONNullFloat64.MarshalJSON (v : JSONNullFloat64) : Jv :=
  if v.Valid then Jv.num v.Float64 else Jv.null

/-- Model of `JSONNullFloat64.UnmarshalJSON` on a fresh receiver: the
number is read as a `float64` (`floatRound`; out of range is an error). -/
def JSONNullFloat64.UnmarshalJSON (v : Jv) : JSONNullFloat64 × Bool :=
  match v with
  | Jv.null => (⟨0, false⟩, false)
  | Jv.num q =>
    match floatRound q with
    | some f => (⟨f, true⟩, false)
    | none => (⟨0, false⟩, true)
  | _ => (⟨0, false⟩, true)

/-- Modelled from the spec: the package-level constant `DefaultOffset` is
referenced by `GetFromURLQuery` but declared in a file not among the
provided sources; the spec fixes the offset default at 0. -/
def DefaultOffset : Int := 0

/-- Modelled from the spec: the package-level constant `DefaultLimit500`
is referenced by `Default` and `GetFromURLQuery` but declared in a file
not among the provided sources; the spec fixes the limit default at
500. -/
def DefaultLimit500 : Int := 500

/-- Model of the `Pagination` struct. -/
structure Pagination where
  Offset : Int
  Limit : Int
deriving DecidableEq

/-- Model of `Default`: offset 0 and limit `DefaultLimit500`. -/
def Default : Pagination := ⟨0, DefaultLimit500⟩

/-- Model of `BadRequestValueError`, reduced to the key it names (the
`Value` and wrapped `Err` fields carry only message text). -/
structure BadRequestValueError where
  Key : String
deriving DecidableEq

/-- Digit run read as a natural number; empty input is rejected. -/
def parseDigits : List Char → Option Nat
  | [] => none
  | cs => cs.foldl (fun acc c => do
      let a ← acc
      let d ← digit? c
      pure (10 * a + d)) (some 0)

/-- Model of Go `strconv.Atoi`: an optional sign, a non-empty digit run,
and a signed 64-bit range check (out-of-range input is an error). -/
def goAtoi (s : String) : Option Int :=
  let core : Option Int :=
    match s.data with
    | '+' :: rest => (parseDigits rest).map fun n => (n : Int)
    | '-' :: rest => (parseDigits rest).map fun n => -(n : Int)
    | cs => (parseDigits cs).map fun n => (n : Int)
  match core with
  | some n => if -(2 ^ 63) ≤ n ∧ n ≤ 2 ^ 63 - 1 then some n else none
  | none => none

/-- Model of Go `strconv.Itoa`. -/
def goItoa (n : Int) : String := toString n

/-- Model of `GetFromURLQuery`.  The two arguments model the optional
`offset` and `limit` query parameters (`c.DefaultQuery` substitutes the
rendered default when a parameter is absent).  The Go function returns a
`Pagination` and an error; a failure returns the zero `Pagination`
together with a `BadRequestValueError` naming the offending key. -/
def GetFromURLQuery (offsetQ limitQ : Option String) :
    Pagination × Option BadRequestValueError :=
  match goAtoi (offsetQ.getD (goItoa DefaultOffset)) with
  | none => (⟨0, 0⟩, some ⟨"offset"⟩)
  | some off =>
    if off < 0 then (⟨0, 0⟩, some ⟨"offset"⟩)
    else
      match goAtoi (limitQ.getD (goItoa DefaultLimit500)) with
      | none => (⟨0, 0⟩, some ⟨"limit"⟩)
      | some lim =>
        if lim < 0 then (⟨0, 0⟩, some ⟨"limit"⟩)
        else (⟨off, lim⟩, none)

/-- A concrete Go element type: a carrier together with its JSON encoding
(what `json.Marshal` emits for a value) and its JSON decoding (what
`json.Unmarshal` of canonical bytes into the type yields, `none` on
error).  This models the type parameter `T` of the generic envelope
functions. -/
structure GoType where
  carrier : Type
  enc : carrier → Jv
  dec : Jv → Option carrier

/-- Dynamic content of the envelope's `Data` field (a Go `interface`
value): a generic slice as produced by a generic JSON decode, a typed
slice as stored by `BuildPageable`, or any non-slice value. -/
inductive GoData where
  | generic (elems : List Jv)
  | typedSlice (T : GoType) (elems : List T.carrier)
  | scalar (v : Jv)

/-- Model of the `Pageable` envelope. -/
structure Pageable where
  Limit : Int
  Offset : Int
  Total : Int
  Data : GoData

/-- Model of `BuildPageable`: the typed data slice is stored as such in
the `Data` field. -/
def BuildPageable (T : GoType) (page : Pagination) (total : Int)
    (data : List T.carrier) : Pageable :=
  { Limit := page.Limit, Offset := page.Offset, Total := total,
    Data := GoData.typedSlice T data }

/-- Element loop of `PageableToSlice`: each element is re-marshalled (which
cannot fail for a JSON-decoded value) and unmarshalled into the target
type; the first failure aborts. -/
def decodeAll (T : GoType) : List Jv → Option (List T.carrier)
  | [] => some []
  | v :: vs =>
    match T.dec v with
    | none => none
    | some x => (decodeAll T vs).map (x :: ·)

/-- Model of `PageableToSlice`.  The type assertion of `Data` to a generic
slice succeeds only on a generic slice — a typed slice is a distinct
dynamic type in Go — and on failure, as on any element failure, an empty
slice together with an error (flag `true`) is returned. -/
def PageableToSlice (T : GoType) (p : Pageable) : List T.carrier × Bool :=
  match p.Data with
  | GoData.generic elems =>
    match decodeAll T elems with
    | some l => (l, false)
    | none => ([], true)
  | _ => ([], true)

/-- Models the JSON round trip of the envelope that the spec assumes
before decoding (marshal the envelope, then generically unmarshal it): a
typed data slice comes back as a generic slice of the elements'
encodings. -/
def genericRedecode (p : Pageable) : Pageable :=
  { p with
    Data :=
      match p.Data with
      | GoData.typedSlice T xs => GoData.generic (xs.map T.enc)
      | d => d }

/-- Model of the `Label` entity: a single `label` field holding a
`NullEmptyString`. -/
structure Label where
  label : NullEmptyString
deriving DecidableEq

/-- JSON encoding of a `Label`, via `NullEmptyString.MarshalJSON` for its
field. -/
def Label.enc (l : Label) : Jv :=
  Jv.obj [("label", NullEmptyString.MarshalJSON l.label)]

/-- JSON decoding of a `Label`: a JSON object's `label` field is decoded
with `NullEmptyString.UnmarshalJSON`, a missing field leaves the zero
value, a JSON null is a no-op, and any other shape is an error. -/
def Label.dec (v : Jv) : Option Label :=
  match v with
  | Jv.null => some ⟨⟨"", false⟩⟩
  | Jv.obj fields =>
    match fields.lookup "label" with
    | some w =>
      match NullEmptyString.UnmarshalJSON w with
      | (ns, false) => some ⟨ns⟩
      | (_, true) => none
    | none => some ⟨⟨"", false⟩⟩
  | _ => none

/-- The `Label` element type packaged for the generic envelope
functions. -/
def LabelTy : GoType := ⟨Label, Label.enc, Label.dec⟩

/-- A present query value is rejected by the parser exactly when this
predicate holds: it does not parse as an integer, or it parses as a
negative one. -/
def badStr (s : String) : Bool :=
  match goAtoi s with
  | none => true
  | some n => n < 0

/-- Lifts `badStr` to an optional query parameter: an absent parameter is
never rejected. -/
def badOpt : Option String → Bool
  | none => false
  | some s => badStr s

theorem digitQ_digitChar (n : Nat) : digit? (digitChar n) = some (n % 10) := by
  have key : ∀ k, k < 10 → digit? (Char.ofNat (48 + k)) = some k := by decide
  have h : n % 10 < 10 := Nat.mod_lt _ (by omega)
  exact key (n % 10) h

theorem parseDate_formatDate (y m d : Nat) (hy : y ≤ 9999) (hm1 : 1 ≤ m)
    (hm2 : m ≤ 12) (hd1 : 1 ≤ d) (hd2 : d ≤ daysInMonth y m) :
    parseDate (formatDate y m d) = some ⟨y, m, d, 0, 0, 0, 0⟩ := by
  have g1 : y / 100 / 10 = y / 1000 := by rw [Nat.div_div_eq_div_mul]
  have g2 : y / 10 / 10 = y / 100 := by rw [Nat.div_div_eq_div_mul]
  have g3 : y / 1000 / 10 = y / 10000 := by rw [Nat.div_div_eq_div_mul]
  have hy' : 1000 * (y / 1000 % 10) + 100 * (y / 100 % 10) + 10 * (y / 10 % 10) + y % 10 = y := by
    omega
  have hdm : daysInMonth y m ≤ 31 := by
    simp only [daysInMonth]
    split <;> split <;> omega
  have hm' : 10 * (m / 10 % 10) + m % 10 = m := by omega
  have hd' : 10 * (d / 10 % 10) + d % 10 = d := by omega
  have hfy : formatYear y = pad4 y := by simp [formatYear, hy]
  simp only [formatDate, hfy, pad4, pad2, parseDate, List.cons_append, List.nil_append]
  simp only [digitQ_digitChar]
  simp only [hy', hm', hd']
  simp [hm1, hm2, hd1, hd2]

theorem badOpt_getD (q : Option String) (d : String) (hgood : badStr d = false) :
    badOpt q = match goAtoi (q.getD d) with
               | none => true
               | some n => decide (n < 0) := by
  rcases q with _ | s
  · simp only [badOpt, Option.getD]
    exact hgood.symm
  · rfl

theorem GFU_spec (oq lq : Option String) :
    (badOpt oq = true → GetFromURLQuery oq lq = (⟨0, 0⟩, some ⟨"offset"⟩)) ∧
    (badOpt oq = false → badOpt lq = true →
      GetFromURLQuery oq lq = (⟨0, 0⟩, some ⟨"limit"⟩)) ∧
    (badOpt oq = false → badOpt lq = false →
      GetFromURLQuery oq lq =
        (⟨(goAtoi (oq.getD (goItoa DefaultOffset))).getD 0,
          (goAtoi (lq.getD (goItoa DefaultLimit500))).getD 0⟩, none)) := by
  rw [badOpt_getD oq (goItoa DefaultOffset) (by decide),
    badOpt_getD lq (goItoa DefaultLimit500) (by decide)]
  rcases h1 : goAtoi (oq.getD (goItoa DefaultOffset)) with _ | n
  · simp [GetFromURLQuery, h1]
  · rcases h2 : goAtoi (lq.getD (goItoa DefaultLimit500)) with _ | k
    · by_cases hn : n < 0 <;> simp [GetFromURLQuery, h1, h2, hn]
    · by_cases hn : n < 0 <;> by_cases hk : k < 0 <;>
        simp [GetFromURLQuery, h1, h2, hn, hk]

/-- C3: `GetFromURLQuery` fails with a bad-request error exactly when the
offset or limit parameter is present but does not parse as an integer or
parses negative; `offset=-1` and `limit=-1` always fail; on failure the
zero `Pagination` is returned with a `BadRequestValueError` naming the
offending key (offset being checked first). -/
theorem C3_badrequest (oq lq : Option String) :
    ((GetFromURLQuery oq lq).2.isSome = true ↔ (badOpt oq = true ∨ badOpt lq = true)) ∧
    ((GetFromURLQuery oq lq).2.isSome = true → (GetFromURLQuery oq lq).1 = ⟨0, 0⟩) ∧
    (badOpt oq = true → (GetFromURLQuery oq lq).2 = some ⟨"offset"⟩) ∧
    (badOpt oq = false → badOpt lq = true → (GetFromURLQuery oq lq).2 = some ⟨"limit"⟩) ∧
    (GetFromURLQuery (some "-1") lq).2.isSome = true ∧
    (GetFromURLQuery oq (some "-1")).2.isSome = true := by
  have h5 : (GetFromURLQuery (some "-1") lq).2.isSome = true := by
    rw [(GFU_spec (some "-1") lq).1 (by decide)]
    rfl
  have h6 : (GetFromURLQuery oq (some "-1")).2.isSome = true := by
    cases hboq : badOpt oq
    · rw [(GFU_spec oq (some "-1")).2.1 hboq (by decide)]
      rfl
    · rw [(GFU_spec oq (some "-1")).1 hboq]
      rfl
  refine ⟨?_, ?_, fun hb => by rw [(GFU_spec oq lq).1 hb],
    fun h1 h2 => by rw [(GFU_spec oq lq).2.1 h1 h2], h5, h6⟩
  · constructor
    · intro h
      cases hboq : badOpt oq
      · cases hblq : badOpt lq
        · rw [(GFU_spec oq lq).2.2 hboq hblq] at h
          simp at h
        · exact Or.inr rfl
      · exact Or.inl rfl
    · intro h
      rcases h with hb | hb
      · rw [(GFU_spec oq lq).1 hb]
        rfl
      · cases hboq : badOpt oq
        · rw [(GFU_spec oq lq).2.1 hboq hb]
          rfl
        · rw [(GFU_spec oq lq).1 hboq]
          rfl
  · intro h
    cases hboq : badOpt oq
    · cases hblq : badOpt lq
      · rw [(GFU_spec oq lq).2.2 hboq hblq] at h
        simp at h
      · rw [(GFU_spec oq lq).2.1 hboq hblq]
    · rw [(GFU_spec oq lq).1 hboq]

/-- Witness for C3 at concrete inputs: `offset=-1` yields the zero
pagination and an error naming `offset`; a good offset with `limit=-1`
yields an error naming `limit`. -/
theorem C3_witness :
    (GetFromURLQuery (some "-1") none).2 = some ⟨"offset"⟩ ∧
    (GetFromURLQuery (some "-1") none).1 = ⟨0, 0⟩ ∧
    (GetFromURLQuery (some "7") (some "-1")).2 = some ⟨"limit"⟩ :=
  ⟨(C3_badrequest (some "-1") none).2.2.1 (by decide),
   (C3_badrequest (some "-1") none).2.1 ((C3_badrequest (some "-1") none).2.2.2.2.1),
   (C3_badrequest (some "7") (some "-1")).2.2.2.1 (by decide) (by decide)⟩

/-- C7: an absent offset parameter yields offset 0, an absent limit
parameter yields limit 500, the all-absent request succeeds with
`Pagination` offset 0 limit 500, and that value equals `Default`. -/
theorem C7_defaults :
    (∀ lq : Option String, (GetFromURLQuery none lq).1.Offset = 0) ∧
    (∀ oq : Option String, (GetFromURLQuery oq none).2 = none →
      (GetFromURLQuery oq none).1.Limit = 500) ∧
    GetFromURLQuery none none = (⟨0, 500⟩, none) ∧
    Default = ⟨0, 500⟩ ∧
    (GetFromURLQuery none none).1 = Default := by
  have hnone : badOpt none = false := rfl
  refine ⟨?_, ?_, by decide, rfl, by decide⟩
  · intro lq
    cases hblq : badOpt lq
    · rw [(GFU_spec none lq).2.2 hnone hblq]
      rfl
    · rw [(GFU_spec none lq).2.1 hnone hblq]
  · intro oq h
    cases hboq : badOpt oq
    · rw [(GFU_spec oq none).2.2 hboq hnone]
      rfl
    · rw [(GFU_spec oq none).1 hboq] at h
      simp at h

/-- Witness for C7: the all-absent request evaluates to offset 0, limit
500, and a request with only the offset present keeps limit 500. -/
theorem C7_witness :
    GetFromURLQuery none none = (⟨0, 500⟩, none) ∧
    (GetFromURLQuery (some "3") none).1.Limit = 500 :=
  ⟨C7_defaults.2.2.1, C7_defaults.2.1 (some "3") (by decide)⟩

/-- C10: `MapToInt32` errors for every valid value above the 32-bit
maximum, silently wraps (two's-complement, modulo 2^32) every valid value
below the 32-bit minimum, and returns no value and no error for an
invalid wrapper. -/
theorem C10_MapToInt32 :
    (∀ n : Int, n > 2147483647 → NullInt.MapToInt32 ⟨n, true⟩ = (none, true)) ∧
    (∀ n : Int, n < -2147483648 →
      NullInt.MapToInt32 ⟨n, true⟩ = (some (wrap32 n), false) ∧
      -2147483648 ≤ wrap32 n ∧ wrap32 n ≤ 2147483647 ∧
      wrap32 n % 4294967296 = n % 4294967296) ∧
    (∀ n : Int, NullInt.MapToInt32 ⟨n, false⟩ = (none, false)) := by
  refine ⟨fun n h => ?_, fun n h => ⟨?_, ?_, ?_, ?_⟩, fun n => ?_⟩
  · simp [NullInt.MapToInt32, h]
  · simp [NullInt.MapToInt32, show ¬(n > 2147483647) by omega]
  · unfold wrap32; omega
  · unfold wrap32; omega
  · unfold wrap32; omega
  · simp [NullInt.MapToInt32]

/-- Witness for C10: one value past each end of the 32-bit range; the
below-minimum value comes back wrapped into range without an error. -/
theorem C10_witness :
    NullInt.MapToInt32 ⟨2147483648, true⟩ = (none, true) ∧
    NullInt.MapToInt32 ⟨-2147483649, true⟩ = (some 2147483647, false) := by
  refine ⟨C10_MapToInt32.1 2147483648 (by norm_num), ?_⟩
  have h := (C10_MapToInt32.2.1 (-2147483649) (by norm_num)).1
  rw [h]
  norm_num [wrap32]

/-- C4: on every envelope whose payload is not a generic slice,
`PageableToSlice` fails, returning an empty slice and an error. -/
theorem C4_nongeneric_fails (T : GoType) (p : Pageable)
    (h : ∀ elems : List Jv, p.Data ≠ GoData.generic elems) :
    PageableToSlice T p = ([], true) := by
  unfold PageableToSlice
  cases hd : p.Data with
  | generic elems => exact absurd hd (h elems)
  | typedSlice T' xs => rfl
  | scalar v => rfl

/-- Witness for C4, mirroring the repository's own test: a payload
holding the number 1 decoded at `Label` fails with an empty slice. -/
theorem C4_witness :
    PageableToSlice LabelTy
      { Limit := 0, Offset := 0, Total := 0, Data := GoData.scalar (Jv.num 1) } =
      ([], true) :=
  C4_nongeneric_fails LabelTy _ (fun elems h => by cases h)

/-- Counterexample to C5 as stated: an invalid `NullEmptyString` marshals
to the empty JSON string, not to the JSON literal null. -/
theorem C5_counterexample :
    NullEmptyString.MarshalJSON ⟨"x", false⟩ = Jv.str "" ∧
    NullEmptyString.MarshalJSON ⟨"x", false⟩ ≠ Jv.null :=
  ⟨rfl, by simp [NullEmptyString.MarshalJSON]⟩

/-- C5 amended: every invalid wrapper marshals to null except
`NullEmptyString`, which marshals to the empty JSON string; the
collapsing variants (`NullInt` 0, `NullFloat` 0.0, `NullString` empty,
`NullTime` zero time) also marshal valid zero/empty values to null. -/
theorem C5_marshal_null_amended :
    (∀ b : Bool, NullBool.MarshalJSON ⟨b, false⟩ = Jv.null) ∧
    (∀ n : Int, NullInt.MarshalJSON ⟨n, false⟩ = Jv.null) ∧
    NullInt.MarshalJSON ⟨0, true⟩ = Jv.null ∧
    (∀ q : Rat, NullFloat.MarshalJSON ⟨q, false⟩ = Jv.null) ∧
    NullFloat.MarshalJSON ⟨0, true⟩ = Jv.null ∧
    (∀ s : String, NullString.MarshalJSON ⟨s, false⟩ = Jv.null) ∧
    NullString.MarshalJSON ⟨"", true⟩ = Jv.null ∧
    (∀ t : GoTime, NullTime.MarshalJSON ⟨t, false⟩ = Jv.null) ∧
    NullTime.MarshalJSON ⟨GoTime.zero, true⟩ = Jv.null ∧
    (∀ n : Int, JSONNullInt64.MarshalJSON ⟨n, false⟩ = Jv.null) ∧
    (∀ q : Rat, JSONNullFloat64.MarshalJSON ⟨q, false⟩ = Jv.null) ∧
    (∀ s : String, NullEmptyString.MarshalJSON ⟨s, false⟩ = Jv.str "") :=
  ⟨fun _ => rfl, fun _ => rfl, rfl, fun _ => rfl, rfl,
   fun _ => rfl, rfl, fun _ => rfl, rfl, fun _ => rfl,
   fun _ => rfl, fun _ => rfl⟩

/-- Counterexample to C8 as stated: a non-zero receiver that is strictly
after a zero argument — the non-zero side, which any tie-break favoring
it should let win — still gets `AfterOrEqual = false`. -/
theorem C8_counterexample :
    NullTime.AfterOrEqual ⟨⟨2021, 1, 1, 0, 0, 0, 0⟩, true⟩ ⟨GoTime.zero, true⟩ = false ∧
    GoTime.After ⟨2021, 1, 1, 0, 0, 0, 0⟩ GoTime.zero = true ∧
    GoTime.IsZero ⟨2021, 1, 1, 0, 0, 0, 0⟩ = false ∧
    GoTime.IsZero GoTime.zero = true := by
  refine ⟨by decide, by decide, by decide, by decide⟩

/-- C8 amended: `AfterOrEqual` is plain equal-or-after except that a
non-zero receiver compared with a zero argument yields false;
`BeforeOrEqual` is plain equal-or-before when both sides have equal
zero-ness, and with exactly one zero side it is true exactly when the
receiver is the non-zero one. -/
theorem C8_compare_amended (a b : NullTime) :
    (¬(a.Time.IsZero = false ∧ b.Time.IsZero = true) →
      a.AfterOrEqual b = ((a.Time == b.Time) || a.Time.After b.Time)) ∧
    (a.Time.IsZero = false → b.Time.IsZero = true →
      a.AfterOrEqual b = false ∧ a.BeforeOrEqual b = true) ∧
    (a.Time.IsZero = true → b.Time.IsZero = false → a.BeforeOrEqual b = false) ∧
    (a.Time.IsZero = b.Time.IsZero →
      a.BeforeOrEqual b = ((a.Time == b.Time) || a.Time.Before b.Time)) := by
  cases hza : a.Time.IsZero <;> cases hzb : b.Time.IsZero <;>
    simp [NullTime.AfterOrEqual, NullTime.BeforeOrEqual, hza, hzb]

/-- Witness for C8 at concrete dates: both-non-zero comparison is plain,
and a non-zero receiver is `BeforeOrEqual` a zero argument. -/
theorem C8_witness :
    NullTime.AfterOrEqual ⟨⟨2021, 5, 4, 0, 0, 0, 0⟩, true⟩ ⟨⟨2021, 5, 3, 0, 0, 0, 0⟩, true⟩ = true ∧
    NullTime.BeforeOrEqual ⟨⟨2021, 5, 4, 0, 0, 0, 0⟩, true⟩ ⟨GoTime.zero, true⟩ = true := by
  have h1 := (C8_compare_amended ⟨⟨2021, 5, 4, 0, 0, 0, 0⟩, true⟩
    ⟨⟨2021, 5, 3, 0, 0, 0, 0⟩, true⟩).1 (by decide)
  have h2 := (C8_compare_amended ⟨⟨2021, 5, 4, 0, 0, 0, 0⟩, true⟩
    ⟨GoTime.zero, true⟩).2.1 (by decide) (by decide)
  exact ⟨by rw [h1]; decide, h2.2⟩

/-- Counterexample to C1 as stated: decoding an envelope built directly by
`BuildPageable` fails (the typed data slice is not a generic slice, so the
type assertion fails), instead of succeeding with the original slice. -/
theorem C1_counterexample :
    PageableToSlice LabelTy (BuildPageable LabelTy ⟨0, 500⟩ 1 [⟨⟨"a", true⟩⟩]) = ([], true) ∧
    PageableToSlice LabelTy (BuildPageable LabelTy ⟨0, 500⟩ 1 [⟨⟨"a", true⟩⟩]) ≠
      ([⟨⟨"a", true⟩⟩], false) :=
  ⟨rfl, by
    intro hc
    have h0 : PageableToSlice LabelTy
        (BuildPageable LabelTy ⟨0, 500⟩ 1 [⟨⟨"a", true⟩⟩]) = ([], true) := rfl
    rw [h0] at hc
    simp at hc⟩

/-- C1 amended: `PageableToSlice` applied directly to a `BuildPageable`
envelope always fails with an empty slice and an error; after the
envelope's JSON round trip (payload generically re-decoded), decoding at
the same element type succeeds and returns the original slice whenever
each element's JSON decode inverts its encode. -/
theorem C1_roundtrip_amended (T : GoType) (page : Pagination) (total : Int)
    (xs : List T.carrier) :
    PageableToSlice T (BuildPageable T page total xs) = ([], true) ∧
    ((∀ x ∈ xs, T.dec (T.enc x) = some x) →
      PageableToSlice T (genericRedecode (BuildPageable T page total xs)) = (xs, false)) := by
  constructor
  · rfl
  · intro h
    have hdec : decodeAll T (xs.map T.enc) = some xs := by
      induction xs with
      | nil => rfl
      | cons x rest ih =>
        simp only [List.map_cons, decodeAll, h x (List.mem_cons_self x rest)]
        rw [ih (fun y hy => h y (List.mem_cons_of_mem x hy))]
        rfl
    change (match decodeAll T (xs.map T.enc) with
      | some l => (l, false)
      | none => ([], true)) = (xs, false)
    rw [hdec]

/-- Witness for C1 at `Label` elements whose decode inverts their encode:
the wire round trip reproduces the original slice. -/
theorem C1_witness :
    PageableToSlice LabelTy
      (genericRedecode (BuildPageable LabelTy ⟨0, 500⟩ 2 [⟨⟨"a", true⟩⟩, ⟨⟨"b", true⟩⟩])) =
      ([⟨⟨"a", true⟩⟩, ⟨⟨"b", true⟩⟩], false) :=
  (C1_roundtrip_amended LabelTy ⟨0, 500⟩ 2 _).2 (by
    intro x hx
    fin_cases hx <;> rfl)

/-- Counterexample to C6 as stated: `NullEmptyString.UnmarshalJSON` on the
JSON literal null sets validity to true (the inner string unmarshal treats
null as a successful no-op), not false. -/
theorem C6_counterexample :
    (NullEmptyString.UnmarshalJSON Jv.null).1.Valid = true ∧
    (NullEmptyString.UnmarshalJSON Jv.null).2 = false :=
  ⟨rfl, rfl⟩

/-- C6 amended: for every wrapper except `NullEmptyString`, decoding the
literal null gives validity false; on every non-null input the resulting
validity equals parse success (no error); `NullTime` in particular ends
invalid with an error when both the date and the RFC3339 parses fail;
`NullEmptyString` treats null as a successful parse, so its validity
equals parse success on all inputs but is true on null. -/
theorem C6_unmarshal_amended :
    (NullBool.UnmarshalJSON Jv.null).1.Valid = false ∧
    (∀ v : Jv, v ≠ Jv.null →
      (NullBool.UnmarshalJSON v).1.Valid = !(NullBool.UnmarshalJSON v).2) ∧
    (NullInt.UnmarshalJSON Jv.null).1.Valid = false ∧
    (∀ v : Jv, v ≠ Jv.null →
      (NullInt.UnmarshalJSON v).1.Valid = !(NullInt.UnmarshalJSON v).2) ∧
    (NullFloat.UnmarshalJSON Jv.null).1.Valid = false ∧
    (∀ v : Jv, v ≠ Jv.null →
      (NullFloat.UnmarshalJSON v).1.Valid = !(NullFloat.UnmarshalJSON v).2) ∧
    (NullString.UnmarshalJSON Jv.null).1.Valid = false ∧
    (∀ v : Jv, v ≠ Jv.null →
      (NullString.UnmarshalJSON v).1.Valid = !(NullString.UnmarshalJSON v).2) ∧
    (NullTime.UnmarshalJSON Jv.null).1.Valid = false ∧
    (∀ v : Jv, v ≠ Jv.null →
      (NullTime.UnmarshalJSON v).1.Valid = !(NullTime.UnmarshalJSON v).2) ∧
    (∀ s : String, parseDate s = none → parseRFC3339 s = none →
      (NullTime.UnmarshalJSON (Jv.str s)).1.Valid = false ∧
      (NullTime.UnmarshalJSON (Jv.str s)).2 = true) ∧
    (JSONNullInt64.UnmarshalJSON Jv.null).1.Valid = false ∧
    (∀ v : Jv, v ≠ Jv.null →
      (JSONNullInt64.UnmarshalJSON v).1.Valid = !(JSONNullInt64.UnmarshalJSON v).2) ∧
    (JSONNullFloat64.UnmarshalJSON Jv.null).1.Valid = false ∧
    (∀ v : Jv, v ≠ Jv.null →
      (JSONNullFloat64.UnmarshalJSON v).1.Valid = !(JSONNullFloat64.UnmarshalJSON v).2) ∧
    (NullEmptyString.UnmarshalJSON Jv.null).1.Valid = true ∧
    (∀ v : Jv,
      (NullEmptyString.UnmarshalJSON v).1.Valid = !(NullEmptyString.UnmarshalJSON v).2) := by
  refine ⟨rfl, ?_, rfl, ?_, rfl, ?_, rfl, ?_, rfl, ?_, ?_, rfl, ?_, rfl, ?_, rfl, ?_⟩
  · intro v hv
    cases v <;> first | rfl | exact absurd rfl hv
  · intro v hv
    cases v with
    | null => exact absurd rfl hv
    | num q => rcases hf : floatRound q with _ | f <;> simp [NullInt.UnmarshalJSON, hf]
    | bool b => rfl
    | str s => rfl
    | arr elems => rfl
    | obj fields => rfl
  · intro v hv
    cases v with
    | null => exact absurd rfl hv
    | num q => rcases hf : floatRound q with _ | f <;> simp [NullFloat.UnmarshalJSON, hf]
    | bool b => rfl
    | str s => rfl
    | arr elems => rfl
    | obj fields => rfl
  · intro v hv
    cases v <;> first | rfl | exact absurd rfl hv
  · intro v hv
    cases v with
    | null => exact absurd rfl hv
    | str s =>
      rcases hp : parseDate s with _ | t
      · rcases hr : parseRFC3339 s with _ | t
        · simp [NullTime.UnmarshalJSON, hp, hr]
        · simp [NullTime.UnmarshalJSON, hp, hr]
      · simp [NullTime.UnmarshalJSON, hp]
    | bool b => rfl
    | num q => rfl
    | arr elems => rfl
    | obj fields => rfl
  · intro s hp hr
    constructor
    · simp [NullTime.UnmarshalJSON, hp, hr]
    · simp [NullTime.UnmarshalJSON, hp, hr]
  · intro v hv
    cases v with
    | null => exact absurd rfl hv
    | num q =>
      by_cases hq : q.den = 1 <;> simp [JSONNullInt64.UnmarshalJSON, hq]
    | bool b => rfl
    | str s => rfl
    | arr elems => rfl
    | obj fields => rfl
  · intro v hv
    cases v with
    | null => exact absurd rfl hv
    | num q => rcases hf : floatRound q with _ | f <;> simp [JSONNullFloat64.UnmarshalJSON, hf]
    | bool b => rfl
    | str s => rfl
    | arr elems => rfl
    | obj fields => rfl
  · intro v
    cases v <;> rfl

/-- Witness for C6: a string failing both time layouts decodes to an
invalid `NullTime` with an error, and a non-null mistyped input gives a
`NullBool` whose validity mirrors the error flag. -/
theorem C6_witness :
    (NullTime.UnmarshalJSON (Jv.str "hello")).1.Valid = false ∧
    (NullTime.UnmarshalJSON (Jv.str "hello")).2 = true ∧
    (NullBool.UnmarshalJSON (Jv.num 3)).1.Valid = !(NullBool.UnmarshalJSON (Jv.num 3)).2 := by
  obtain ⟨h1, h2⟩ :=
    C6_unmarshal_amended.2.2.2.2.2.2.2.2.2.2.1 "hello" (by decide) (by decide)
  exact ⟨h1, h2, C6_unmarshal_amended.2.1 (Jv.num 3) (by simp)⟩

theorem truncQ_intCast (n : Int) : truncQ (n : Rat) = n := by
  simp [truncQ]

/-- Counterexample to C2 as stated: an invalid `NullEmptyString` holding
a non-empty string round trips to a wrapper whose validity flag flipped
from false to true. -/
theorem C2_counterexample :
    (NullEmptyString.UnmarshalJSON (NullEmptyString.MarshalJSON ⟨"x", false⟩)).1 = ⟨"", true⟩ ∧
    (⟨"", true⟩ : NullEmptyString).Valid ≠ (⟨"x", false⟩ : NullEmptyString).Valid :=
  ⟨rfl, by decide⟩

/-- C2 amended: encode-then-decode preserves validity and value for
valid wrappers whose value survives the decode path: `NullInt`,
`NullFloat` and `JSONNullFloat64` read the number back through a
`float64`, so the value must be exactly representable in binary64 —
a `NullInt` beyond 2^53 comes back rounded (2^53+1 decodes to 2^53) —
and the collapsing variants (`NullInt` 0, `NullFloat` 0.0, `NullString`
empty, `NullTime` zero time) come back invalid.  `NullTime` truncates to
the calendar date (midnight UTC) for years up to 9999; a five-digit year
formats with five digits, which neither read-back layout accepts, so it
returns invalid with an error.  An invalid wrapper comes back invalid
with the zero payload, except `NullEmptyString`, which comes back valid
with the empty string. -/
theorem C2_roundtrip_amended :
    (∀ b : Bool,
      NullBool.UnmarshalJSON (NullBool.MarshalJSON ⟨b, true⟩) = (⟨b, true⟩, false)) ∧
    (∀ b : Bool,
      NullBool.UnmarshalJSON (NullBool.MarshalJSON ⟨b, false⟩) = (⟨false, false⟩, false)) ∧
    (∀ n : Int, n ≠ 0 → floatRound (n : Rat) = some ((n : Int) : Rat) →
      NullInt.UnmarshalJSON (NullInt.MarshalJSON ⟨n, true⟩) = (⟨n, true⟩, false)) ∧
    NullInt.UnmarshalJSON (NullInt.MarshalJSON ⟨9007199254740993, true⟩) =
      (⟨9007199254740992, true⟩, false) ∧
    NullInt.UnmarshalJSON (NullInt.MarshalJSON ⟨0, true⟩) = (⟨0, false⟩, false) ∧
    (∀ n : Int,
      NullInt.UnmarshalJSON (NullInt.MarshalJSON ⟨n, false⟩) = (⟨0, false⟩, false)) ∧
    (∀ q : Rat, q ≠ 0 → floatRound q = some q →
      NullFloat.UnmarshalJSON (NullFloat.MarshalJSON ⟨q, true⟩) = (⟨q, true⟩, false)) ∧
    NullFloat.UnmarshalJSON (NullFloat.MarshalJSON ⟨0, true⟩) = (⟨0, false⟩, false) ∧
    (∀ q : Rat,
      NullFloat.UnmarshalJSON (NullFloat.MarshalJSON ⟨q, false⟩) = (⟨0, false⟩, false)) ∧
    (∀ s : String, s ≠ "" →
      NullString.UnmarshalJSON (NullString.MarshalJSON ⟨s, true⟩) = (⟨s, true⟩, false)) ∧
    NullString.UnmarshalJSON (NullString.MarshalJSON ⟨"", true⟩) = (⟨"", false⟩, false) ∧
    (∀ s : String,
      NullString.UnmarshalJSON (NullString.MarshalJSON ⟨s, false⟩) = (⟨"", false⟩, false)) ∧
    (∀ s : String,
      NullEmptyString.UnmarshalJSON (NullEmptyString.MarshalJSON ⟨s, true⟩) =
        (⟨s, true⟩, false)) ∧
    (∀ s : String,
      NullEmptyString.UnmarshalJSON (NullEmptyString.MarshalJSON ⟨s, false⟩) =
        (⟨"", true⟩, false)) ∧
    (∀ t : GoTime, t.year ≤ 9999 → 1 ≤ t.month → t.month ≤ 12 → 1 ≤ t.day →
      t.day ≤ daysInMonth t.year t.month → t.IsZero = false →
      NullTime.UnmarshalJSON (NullTime.MarshalJSON ⟨t, true⟩) =
        (⟨⟨t.year, t.month, t.day, 0, 0, 0, 0⟩, true⟩, false)) ∧
    NullTime.UnmarshalJSON (NullTime.MarshalJSON ⟨⟨10000, 1, 2, 3, 4, 5, 6⟩, true⟩) =
      (⟨GoTime.zero, false⟩, true) ∧
    (∀ t : GoTime,
      NullTime.UnmarshalJSON (NullTime.MarshalJSON ⟨t, false⟩) =
        (⟨GoTime.zero, false⟩, false)) ∧
    NullTime.UnmarshalJSON (NullTime.MarshalJSON ⟨GoTime.zero, true⟩) =
      (⟨GoTime.zero, false⟩, false) ∧
    (∀ n : Int,
      JSONNullInt64.UnmarshalJSON (JSONNullInt64.MarshalJSON ⟨n, true⟩) = (⟨n, true⟩, false)) ∧
    (∀ n : Int,
      JSONNullInt64.UnmarshalJSON (JSONNullInt64.MarshalJSON ⟨n, false⟩) = (⟨0, false⟩, false)) ∧
    (∀ q : Rat, floatRound q = some q →
      JSONNullFloat64.UnmarshalJSON (JSONNullFloat64.MarshalJSON ⟨q, true⟩) = (⟨q, true⟩, false)) ∧
    (∀ q : Rat,
      JSONNullFloat64.UnmarshalJSON (JSONNullFloat64.MarshalJSON ⟨q, false⟩) =
        (⟨0, false⟩, false)) := by
  refine ⟨fun b => rfl, fun b => rfl, ?_, by decide, rfl, fun n => rfl, ?_, rfl, fun q => rfl,
    ?_, rfl, fun s => rfl, fun s => rfl, fun s => rfl, ?_, by decide, fun t => rfl, rfl,
    ?_, fun n => rfl, ?_, fun q => rfl⟩
  · intro n hn hf
    have hne : (n == (0 : Int)) = false := by simp [hn]
    simp [NullInt.MarshalJSON, hne, NullInt.UnmarshalJSON, hf, truncQ_intCast]
  · intro q hq hf
    have hne : (q == (0 : Rat)) = false := by simp [hq]
    simp [NullFloat.MarshalJSON, hne, NullFloat.UnmarshalJSON, hf]
  · intro s hs
    have hne : (s == "") = false := by simp [hs]
    simp [NullString.MarshalJSON, hne, NullString.UnmarshalJSON]
  · intro t h9999 hm1 hm2 hd1 hd2 hz
    have hmarsh : NullTime.MarshalJSON ⟨t, true⟩ =
        Jv.str (formatDate t.year t.month t.day) := by
      simp [NullTime.MarshalJSON, hz]
    rw [hmarsh]
    simp [NullTime.UnmarshalJSON, parseDate_formatDate t.year t.month t.day h9999 hm1 hm2 hd1 hd2]
  · intro n
    simp [JSONNullInt64.MarshalJSON, JSONNullInt64.UnmarshalJSON]
  · intro q hf
    simp [JSONNullFloat64.MarshalJSON, JSONNullFloat64.UnmarshalJSON, hf]

/-- Witness for C2 on concrete wrappers: a small integer and a
binary64-representable fraction survive the float-mediated decode, and a
non-midnight time is truncated to its date by the round trip. -/
theorem C2_witness :
    NullInt.UnmarshalJSON (NullInt.MarshalJSON ⟨7, true⟩) = (⟨7, true⟩, false) ∧
    NullString.UnmarshalJSON (NullString.MarshalJSON ⟨"a", true⟩) = (⟨"a", true⟩, false) ∧
    NullTime.UnmarshalJSON (NullTime.MarshalJSON ⟨⟨2021, 5, 4, 13, 30, 0, 0⟩, true⟩) =
      (⟨⟨2021, 5, 4, 0, 0, 0, 0⟩, true⟩, false) ∧
    NullFloat.UnmarshalJSON (NullFloat.MarshalJSON ⟨mkRat 5 2, true⟩) =
      (⟨mkRat 5 2, true⟩, false) := by
  obtain ⟨h1, h2, h3, h4, h5, h6, h7, h8, h9, h10, h11, h12, h13, h14, h15, h16,
    h17, h18, h19, h20, h21, h22⟩ := C2_roundtrip_amended
  exact ⟨h3 7 (by decide) (by decide), h10 "a" (by decide),
    h15 ⟨2021, 5, 4, 13, 30, 0, 0⟩ (by decide) (by decide) (by decide) (by decide)
      (by decide) (by decide),
    h7 (mkRat 5 2) (by decide) (by decide)⟩
